import Mathlib

/-!
# PWM custom IP core driver (`driver.c`)

A shallow embedding of the character-device driver for the memory-mapped PWM
duty-cycle register, and theorems about its codec (`ascii_to_num`), its file
operations (`pwm_open`, `pwm_release`, `pwm_read`, `pwm_write`), its binding
callbacks (`pwm_dev_probe`, `pwm_dev_remove`) and its module entry points
(`pwm_driver_init`, `pwm_driver_exit`).

Conventions.
* `uint8_t` values are naturals below 256; a store into a `uint8_t` object
  reduces modulo 256.
* `int` values are integers; the conversion `int → unsigned int` reduces
  modulo `2 ^ 32`.
* Pointers are naturals, `0` is `NULL`.
* Kernel services the driver calls are modelled as transformers of an explicit
  state that records the resources currently held and the chronological list
  of calls made.
-/

namespace PwmDriver

/-! ## Machine arithmetic -/

/-- Largest value of a C `int` (32 bits). -/
def INT_MAX : Int := 2147483647

/-- Smallest value of a C `int` (32 bits). -/
def INT_MIN : Int := -2147483648

/-- Conversion of an `int` to `unsigned int`: reduction modulo `2 ^ 32`. -/
def to_unsigned (x : Int) : Nat := (x % 4294967296).toNat

/-- Store into a `uint8_t` object. -/
def to_u8 (x : Nat) : Nat := x % 256

/-- The cast `(u32)` applied to a `uint8_t` value: zero extension. -/
def to_u32 (x : Nat) : Nat := x % 4294967296

/-- Conversion `size_t → ssize_t` performed by `return len;` in a function
returning `ssize_t`, on the 32-bit target named in the file header
(two's-complement reinterpretation of the low 32 bits). -/
def to_ssize (len : Nat) : Int :=
  if len % 4294967296 < 2147483648 then ((len % 4294967296 : Nat) : Int)
  else ((len % 4294967296 : Nat) : Int) - 4294967296

/-! ## Duty-cycle codec: `ascii_to_num` -/

/-- Body of the `for` loop of `ascii_to_num` for one index: the `int` stored
into `d[i]` for the byte `data[i]`. -/
def ascii_to_num_digit (x : Nat) : Int :=
  if x < 0x30 ∨ x > 0x39 then 0 else (x : Int) - 0x30

/-- The local array `int d[4]` after the loop `for (i = 0; i < 4; i++)` of
`ascii_to_num` has run; `d` starts with unspecified contents, modelled as
zeros, and every cell is overwritten. -/
def ascii_to_num_d (data : List Nat) : List Int :=
  [0, 1, 2, 3].foldl (fun d i => d.set i (ascii_to_num_digit (data.getD i 0))) [0, 0, 0, 0]

/-- The signed (`int`) expression `d[3] + d[2] * 10 + d[1] * 100 + d[0] * 1000`
of the `return` statement, before conversion to the return type. -/
def ascii_to_num_sum (data : List Nat) : Int :=
  let d := ascii_to_num_d data
  d.getD 3 0 + d.getD 2 0 * 10 + d.getD 1 0 * 100 + d.getD 0 0 * 1000

/-- Source function `unsigned int ascii_to_num(uint8_t data[10])`. -/
def ascii_to_num (data : List Nat) : Nat :=
  to_unsigned (ascii_to_num_sum data)

/-- A value of type `uint8_t[10]`: ten bytes. -/
def IsBuf10 (data : List Nat) : Prop :=
  data.length = 10 ∧ ∀ x ∈ data, x < 256

instance (data : List Nat) : Decidable (IsBuf10 data) := by
  unfold IsBuf10; infer_instance

/-- The digit function `g` of the specification: `x - 0x30` for a byte in
`0x30 .. 0x39`, and `0` for every other byte. -/
def spec_digit (x : Nat) : Nat :=
  if 0x30 ≤ x ∧ x ≤ 0x39 then x - 0x30 else 0

/-! ## Kernel state, resources and call trace -/

/-- Errno `ENXIO`, "no such device or address". -/
def ENXIO : Int := 6

/-- Errno `ENODEV`, "no such device". -/
def ENODEV : Int := 19

/-- Diagnostic lines the driver emits through `printk`, `pr_info`, `pr_err`
and `dev_err`, one constructor per call site. -/
inductive Msg
  /-- Message "PWM custom IP probe" -/
  | probe_banner
  /-- Message "could not get IO memory" -/
  | no_io_memory
  /-- Message "could not remap memory" -/
  | remap_failed
  /-- Message "regs->start: .., regs->end: .., virt_mem_start: .." -/
  | regs_info
  /-- Message "Device File Opened...!!!" -/
  | file_opened
  /-- Message "Device File Closed...!!!" -/
  | file_closed
  /-- Message "ERROR: Not all the bytes have been copied to user" -/
  | copy_to_user_short
  /-- Message "Read function : PWM_Duty_Cycle = .." -/
  | read_info
  /-- Message "ERROR: Not all the bytes have been copied from user" -/
  | copy_from_user_short
  /-- Message "Write Function : PWM_Duty_Cycle Set = .." -/
  | write_info
  /-- Message "Device not properlly initialized" -/
  | not_initialized
  /-- Message "Cannot allocate major number" -/
  | no_major
  /-- Message "Major = .. Minor = .." -/
  | major_minor
  /-- Message "Cannot add the device to the system" -/
  | no_cdev
  /-- Message "Cannot create the struct class" -/
  | no_class
  /-- Message "Cannot create the Device" -/
  | no_device
  /-- Message "Device Driver Insert...Done!!!" -/
  | insert_done
  /-- Message "Device Driver Remove...Done!!" -/
  | remove_done
  deriving DecidableEq, Repr

/-- Kernel resources the driver can hold. -/
inductive Resource
  /-- The registration of `pwm_platform_driver` with the platform bus. -/
  | platform_driver
  /-- A live `ioremap` mapping, identified by the address it returned. -/
  | iomem (addr : Nat)
  /-- The character-device number region from `alloc_chrdev_region`. -/
  | chrdev_region
  /-- The character device added by `cdev_add`. -/
  | cdev
  /-- The device class from `class_create`. -/
  | dev_class
  /-- The device node from `device_create` (the character-stream node). -/
  | dev_node
  deriving DecidableEq, Repr

/-- Calls the driver makes into the kernel, with their arguments and results. -/
inductive Event
  | log (m : Msg)
  | platform_driver_register
  | platform_driver_unregister
  | platform_get_resource (found : Bool)
  | ioremap (start size ret : Nat)
  | iounmap (addr : Nat)
  /-- Kernel call `copy_from_user(to, from, n)`: `n` is the count requested, `ret` the
  number of bytes not copied, `oob` the offsets from `to` that were stored to
  although they lie at or beyond the size of the destination object. -/
  | copy_from_user (n ret : Nat) (oob : List Nat)
  /-- Kernel call `copy_to_user(to, from, n)`: `data` are the bytes that reached the
  caller, `ret` the number of bytes not copied. -/
  | copy_to_user (data : List Nat) (n ret : Nat)
  | iowrite32 (val addr : Nat)
  | alloc_chrdev_region (ret : Int)
  | unregister_chrdev_region (dev : Nat)
  | cdev_init
  | cdev_add (ret : Int)
  | cdev_del
  | class_create (ret : Nat)
  | class_destroy (cls : Nat)
  | device_create (ret : Nat)
  | device_destroy (cls dev : Nat)
  deriving DecidableEq, Repr

/-- The driver's globals (`pwm_base`, `dev`, `dev_class`) together with the
part of the kernel the driver acts on: whether the matched device is bound to
the platform driver, the resources held, and the calls made so far in
chronological order. -/
structure State where
  pwm_base : Nat
  dev : Nat
  dev_class : Nat
  bound : Bool
  held : List Resource
  trace : List Event
  deriving DecidableEq, Repr

/-- State at module load: zero-initialised globals, nothing held. -/
def State.init : State :=
  { pwm_base := 0, dev := 0, dev_class := 0, bound := false, held := [], trace := [] }

/-- What the platform and the kernel answer to the driver's calls. -/
structure Platform where
  /-- A device compatible with "xlnx,my-pwm-ip-c2-1.0" is present. -/
  device_matched : Bool
  /-- Kernel call `platform_get_resource(pdev, IORESOURCE_MEM, 0)`: `none` is `NULL`,
  otherwise `(start, end)` of the memory resource. -/
  regs : Option (Nat × Nat)
  /-- Result of `ioremap`; `0` is `NULL`. -/
  ioremap_ret : Nat
  /-- Result of `alloc_chrdev_region`; zero or a negative error code. -/
  alloc_chrdev_region_ret : Int
  /-- Device number `alloc_chrdev_region` stores into `dev` on success. -/
  alloc_dev : Nat
  /-- Result of `cdev_add`; zero or a negative error code. -/
  cdev_add_ret : Int
  /-- Result of `class_create`. -/
  class_create_ret : Nat
  /-- Result of `device_create`. -/
  device_create_ret : Nat
  deriving DecidableEq, Repr

/-- Append a call to the trace. -/
def emit (e : Event) (s : State) : State := { s with trace := s.trace ++ [e] }

/-- Record a resource as held. -/
def acquire (r : Resource) (s : State) : State := { s with held := s.held ++ [r] }

/-- Drop a resource from the held set (no effect when it is not held). -/
def release (r : Resource) (s : State) : State := { s with held := s.held.erase r }

/-- Kernel macro `IS_ERR_OR_NULL` for a 32-bit pointer: `NULL` or one of the top 4095
addresses, which encode error codes. -/
def IS_ERR_OR_NULL (p : Nat) : Bool := p == 0 || decide (4294967296 - 4095 ≤ p)

/-- Kernel helper `resource_size(regs)`: `end - start + 1` computed in the
unsigned 32-bit type `resource_size_t`, so the subtraction and the addition
wrap modulo `2 ^ 32`. -/
def resource_size (start end_ : Nat) : Nat :=
  (end_ % 4294967296 + (4294967296 - start % 4294967296) + 1) % 4294967296

/-- Kernel call `ioremap(start, size)` answering `ret`: a non-`NULL` result is a mapping
that stays held until it is unmapped. -/
def k_ioremap (start size ret : Nat) (s : State) : State :=
  let s := emit (.ioremap start size ret) s
  if ret = 0 then s else acquire (.iomem ret) s

/-- Kernel call `iounmap(addr)`. -/
def k_iounmap (addr : Nat) (s : State) : State :=
  release (.iomem addr) (emit (.iounmap addr) s)

/-- Outcome of a copy from caller memory into a driver object. -/
structure CopyResult where
  /-- The destination object after the copy. -/
  dst : List Nat
  /-- Offsets stored to that lie at or beyond the size of the destination. -/
  oob : List Nat
  /-- Return value: the number of bytes that could not be copied. -/
  uncopied : Nat
  deriving DecidableEq, Repr

/-- Kernel call `copy_from_user(dst, src, n)`. The caller memory readable at `src` is the
list `src`, so that `min n src.length` bytes are transferred: all of them when
the caller memory is long enough, fewer (possibly none) otherwise. Byte `i` of
the transfer is stored at offset `i` of the destination.

This describes the call for `n ≤ dst.length`. For a larger `n` the C call has
no defined result: it overruns the destination object, or a size-checking
kernel refuses it and copies nothing. For such `n` the definition only lists,
in `oob`, the offsets beyond the object that the transfer reaches; nothing may
be concluded from it about the state after the call (see `FileOp.defined`). -/
def copy_from_user (dst src : List Nat) (n : Nat) : CopyResult :=
  let k := min n src.length
  { dst := (List.range dst.length).map
      (fun i => if i < k then to_u8 (src.getD i 0) else dst.getD i 0)
    oob := (List.range k).filter (fun i => decide (dst.length ≤ i))
    uncopied := n - k }

/-- Kernel call `copy_to_user(dst, src, n)` where `uwritable` bytes of caller memory are
writable at `dst`: the bytes delivered and the number not copied. -/
def copy_to_user (uwritable : Nat) (src : List Nat) (n : Nat) : List Nat × Nat :=
  (src.take (min n uwritable), n - min n uwritable)

/-! ## Binding callbacks -/

/-- Source function `static int pwm_dev_probe(struct platform_device *pdev)`. -/
def pwm_dev_probe (p : Platform) (s : State) : Int × State :=
  let s := emit (.log .probe_banner) s
  let s := emit (.platform_get_resource p.regs.isSome) s
  match p.regs with
  | none => (- ENXIO, emit (.log .no_io_memory) s)
  | some (start, end_) =>
    let s := k_ioremap start (resource_size start end_) p.ioremap_ret s
    let s := { s with pwm_base := p.ioremap_ret }
    if s.pwm_base = 0 then (-1, emit (.log .remap_failed) s)
    else (0, emit (.log .regs_info) s)

/-- Source function `static int pwm_dev_remove(struct platform_device *pdev)`. -/
def pwm_dev_remove (s : State) : Int × State :=
  (0, k_iounmap s.pwm_base s)

/-! ## File operations -/

/-- Source function `static int pwm_open(struct inode *inode, struct file *file)`. -/
def pwm_open (s : State) : Int × State :=
  (0, emit (.log .file_opened) s)

/-- Source function `static int pwm_release(struct inode *inode, struct file *file)`. -/
def pwm_release (s : State) : Int × State :=
  (0, emit (.log .file_closed) s)

/-- Source function `static ssize_t pwm_read(struct file *filp, char __user *buf, size_t len,
loff_t *off)`; `uwritable` is the number of bytes of caller memory writable
at `buf`. -/
def pwm_read (uwritable : Nat) (_len : Nat) (s : State) : Int × State :=
  let pwm_state : Nat := 0
  let len := 1
  let c := copy_to_user uwritable [pwm_state] len
  let s := emit (.copy_to_user c.1 len c.2) s
  let s := if c.2 > 0 then emit (.log .copy_to_user_short) s else s
  let s := emit (.log .read_info) s
  (0, s)

/-- The locals of `pwm_write` when it returns, and the outcome of its copy. -/
structure WriteFrame where
  rec_buf : List Nat
  duty : Nat
  copy : CopyResult
  deriving DecidableEq, Repr

/-- The locals of `pwm_write`: `rec_buf` is zero-initialised, filled by
`copy_from_user(rec_buf, buf, len)`, and `duty = ascii_to_num(rec_buf)`. -/
def pwm_write_frame (ubuf : List Nat) (len : Nat) : WriteFrame :=
  let rec_buf := List.replicate 10 0
  let c := copy_from_user rec_buf ubuf len
  let rec_buf := c.dst
  { rec_buf := rec_buf, duty := ascii_to_num rec_buf, copy := c }

/-- Source function `static ssize_t pwm_write(struct file *filp, const char __user *buf,
size_t len, loff_t *off)`; `ubuf` is the caller memory readable at `buf`. -/
def pwm_write (ubuf : List Nat) (len : Nat) (s : State) : Int × State :=
  let f := pwm_write_frame ubuf len
  let s := emit (.copy_from_user len f.copy.uncopied f.copy.oob) s
  let s := if f.copy.uncopied > 0 then emit (.log .copy_from_user_short) s else s
  let s := emit (.log .write_info) s
  let s := emit (.iowrite32 (to_u32 (f.rec_buf.getD 0 0)) s.pwm_base) s
  (to_ssize len, s)

/-- One call on the character device. -/
inductive FileOp
  | open
  | release
  | read (uwritable len : Nat)
  | write (ubuf : List Nat) (len : Nat)
  deriving DecidableEq, Repr

/-- Execute one file operation. -/
def FileOp.run : FileOp → State → Int × State
  | .open, s => pwm_open s
  | .release, s => pwm_release s
  | .read uwritable len, s => pwm_read uwritable len s
  | .write ubuf len, s => pwm_write ubuf len s

/-- Whether the source defines what the call does: a write whose length
exceeds the 10 bytes of `rec_buf` overruns that array in `copy_from_user`, and
execution has no defined continuation. -/
def FileOp.defined : FileOp → Bool
  | .write _ len => decide (len ≤ 10)
  | _ => true

/-- Execute a sequence of file operations in order, keeping the final state;
`none` as soon as a call without defined behaviour is reached. -/
def run_ops : List FileOp → State → Option State
  | [], s => some s
  | op :: ops, s => if op.defined then run_ops ops (op.run s).2 else none

/-! ## Module entry points -/

/-- Kernel call `platform_driver_probe(&pwm_platform_driver, pwm_dev_probe)`: registers
the driver and probes the matched device once; when no device ends up bound
the driver is unregistered again and `-ENODEV` is returned. -/
def platform_driver_probe (p : Platform) (s : State) : Int × State :=
  let s := acquire .platform_driver (emit .platform_driver_register s)
  if p.device_matched then
    match pwm_dev_probe p s with
    | (r, s) =>
      if r = 0 then (0, { s with bound := true })
      else (-ENODEV, release .platform_driver (emit .platform_driver_unregister s))
  else (-ENODEV, release .platform_driver (emit .platform_driver_unregister s))

/-- Kernel call `platform_driver_unregister(&pwm_platform_driver)`: a bound device is
unbound through the driver's `remove` callback. -/
def platform_driver_unregister (s : State) : State :=
  let s := emit .platform_driver_unregister s
  let s := if s.bound then { (pwm_dev_remove s).2 with bound := false } else s
  release .platform_driver s

/-- Kernel call `alloc_chrdev_region(&dev, 0, 1, "pwm_Dev")`. -/
def k_alloc_chrdev_region (p : Platform) (s : State) : Int × State :=
  let s := emit (.alloc_chrdev_region p.alloc_chrdev_region_ret) s
  if p.alloc_chrdev_region_ret < 0 then (p.alloc_chrdev_region_ret, s)
  else (p.alloc_chrdev_region_ret, acquire .chrdev_region { s with dev := p.alloc_dev })

/-- Kernel call `unregister_chrdev_region(dev, 1)`. -/
def k_unregister_chrdev_region (s : State) : State :=
  release .chrdev_region (emit (.unregister_chrdev_region s.dev) s)

/-- Kernel call `cdev_add(&pwm_cdev, dev, 1)`. -/
def k_cdev_add (p : Platform) (s : State) : Int × State :=
  let s := emit (.cdev_add p.cdev_add_ret) s
  if p.cdev_add_ret < 0 then (p.cdev_add_ret, s) else (p.cdev_add_ret, acquire .cdev s)

/-- Kernel call `cdev_del(&pwm_cdev)`. -/
def k_cdev_del (s : State) : State := release .cdev (emit .cdev_del s)

/-- Kernel call `class_create(THIS_MODULE, "pwm_class")`. -/
def k_class_create (p : Platform) (s : State) : Nat × State :=
  let s := emit (.class_create p.class_create_ret) s
  if IS_ERR_OR_NULL p.class_create_ret then (p.class_create_ret, s)
  else (p.class_create_ret, acquire .dev_class s)

/-- Kernel call `class_destroy(dev_class)`. -/
def k_class_destroy (s : State) : State :=
  release .dev_class (emit (.class_destroy s.dev_class) s)

/-- Kernel call `device_create(dev_class, NULL, dev, NULL, "pwm_c2")`. -/
def k_device_create (p : Platform) (s : State) : Nat × State :=
  let s := emit (.device_create p.device_create_ret) s
  if IS_ERR_OR_NULL p.device_create_ret then (p.device_create_ret, s)
  else (p.device_create_ret, acquire .dev_node s)

/-- Kernel call `device_destroy(dev_class, dev)`. -/
def k_device_destroy (s : State) : State :=
  release .dev_node (emit (.device_destroy s.dev_class s.dev) s)

/-- Source function `static int __init pwm_driver_init(void)`. -/
def pwm_driver_init (p : Platform) (s : State) : Int × State :=
  match platform_driver_probe p s with
  | (r, s) =>
  if r < 0 then (-1, emit (.log .not_initialized) s) else
  match k_alloc_chrdev_region p s with
  | (r, s) =>
  if r < 0 then
    let s := emit (.log .no_major) s
    let s := k_unregister_chrdev_region s
    (-1, s)
  else
  let s := emit (.log .major_minor) s
  let s := emit .cdev_init s
  match k_cdev_add p s with
  | (r, s) =>
  if r < 0 then
    let s := emit (.log .no_cdev) s
    let s := k_cdev_del s
    let s := k_unregister_chrdev_region s
    (-1, s)
  else
  match k_class_create p s with
  | (cls, s) =>
  let s := { s with dev_class := cls }
  if s.dev_class = 0 then
    let s := emit (.log .no_class) s
    let s := k_class_destroy s
    let s := k_cdev_del s
    let s := k_unregister_chrdev_region s
    (-1, s)
  else
  match k_device_create p s with
  | (d, s) =>
  if d = 0 then
    let s := emit (.log .no_device) s
    let s := k_device_destroy s
    let s := k_class_destroy s
    let s := k_cdev_del s
    let s := k_unregister_chrdev_region s
    (-1, s)
  else
  (0, emit (.log .insert_done) s)

/-- Source function `static void __exit pwm_driver_exit(void)`. -/
def pwm_driver_exit (s : State) : State :=
  let s := platform_driver_unregister s
  let s := k_device_destroy s
  let s := k_class_destroy s
  let s := k_cdev_del s
  let s := k_unregister_chrdev_region s
  emit (.log .remove_done) s

/-- The `ioremap` and `iounmap` calls of a trace, in order. -/
def map_calls (t : List Event) : List Event :=
  t.filter (fun e => match e with
    | .ioremap _ _ _ => true
    | .iounmap _ => true
    | _ => false)

/-- The `iowrite32` calls of a trace, in order. -/
def reg_writes (t : List Event) : List Event :=
  t.filter (fun e => match e with
    | .iowrite32 _ _ => true
    | _ => false)

/-- The calls of a trace that create part of the character-stream node:
`alloc_chrdev_region`, `cdev_add`, `class_create`, `device_create`. -/
def node_calls (t : List Event) : List Event :=
  t.filter (fun e => match e with
    | .alloc_chrdev_region _ => true
    | .cdev_add _ => true
    | .class_create _ => true
    | .device_create _ => true
    | _ => false)

/-- The counts requested from `copy_from_user` in a trace, in order. -/
def copy_counts (t : List Event) : List Nat :=
  t.filterMap (fun e => match e with
    | .copy_from_user n _ _ => some n
    | _ => none)

/-- A platform on which every step of loading succeeds: the register window
`0x43C00000 .. 0x43C0FFFF` is mapped at `0xF0000000`. -/
def Platform.good : Platform :=
  { device_matched := true
    regs := some (0x43C00000, 0x43C0FFFF)
    ioremap_ret := 0xF0000000
    alloc_chrdev_region_ret := 0
    alloc_dev := 0x0F400000
    cdev_add_ret := 0
    class_create_ret := 0xC1000000
    device_create_ret := 0xC2000000 }

/-! ## Theorems: codec -/

theorem ascii_to_num_d_eq (data : List Nat) :
    ascii_to_num_d data =
      [ascii_to_num_digit (data.getD 0 0), ascii_to_num_digit (data.getD 1 0),
       ascii_to_num_digit (data.getD 2 0), ascii_to_num_digit (data.getD 3 0)] := by
  simp [ascii_to_num_d, List.set]

theorem ascii_to_num_digit_eq (x : Nat) :
    ascii_to_num_digit x = (spec_digit x : Int) := by
  unfold ascii_to_num_digit spec_digit
  split_ifs <;> omega

theorem spec_digit_le (x : Nat) : spec_digit x ≤ 9 := by
  unfold spec_digit
  split_ifs <;> omega

theorem ascii_to_num_sum_eq (data : List Nat) :
    ascii_to_num_sum data =
      ((1000 * spec_digit (data.getD 0 0) + 100 * spec_digit (data.getD 1 0)
        + 10 * spec_digit (data.getD 2 0) + spec_digit (data.getD 3 0) : Nat) : Int) := by
  simp only [ascii_to_num_sum, ascii_to_num_d_eq, ascii_to_num_digit_eq]
  simp only [List.getD_cons_zero, List.getD_cons_succ]
  push_cast
  ring

theorem ascii_to_num_eq (data : List Nat) :
    ascii_to_num data =
      1000 * spec_digit (data.getD 0 0) + 100 * spec_digit (data.getD 1 0)
        + 10 * spec_digit (data.getD 2 0) + spec_digit (data.getD 3 0) := by
  have h0 := spec_digit_le (data.getD 0 0)
  have h1 := spec_digit_le (data.getD 1 0)
  have h2 := spec_digit_le (data.getD 2 0)
  have h3 := spec_digit_le (data.getD 3 0)
  unfold ascii_to_num to_unsigned
  rw [ascii_to_num_sum_eq]
  omega

/-- C2: for every 10-byte buffer `b`, `ascii_to_num b` equals
`1000*g(b[0]) + 100*g(b[1]) + 10*g(b[2]) + g(b[3])` with `g` the digit
function of the specification; the buffer spelling "1234" gives 1234 and the
one spelling "1a34" gives 1034; the function returns a value on every input. -/
theorem C2_ascii_to_num_formula (b : List Nat) (_hb : IsBuf10 b) :
    (ascii_to_num b =
      1000 * spec_digit (b.getD 0 0) + 100 * spec_digit (b.getD 1 0)
        + 10 * spec_digit (b.getD 2 0) + spec_digit (b.getD 3 0))
    ∧ (∃ v : Nat, ascii_to_num b = v)
    ∧ ascii_to_num [0x31, 0x32, 0x33, 0x34, 0, 0, 0, 0, 0, 0] = 1234
    ∧ ascii_to_num [0x31, 0x61, 0x33, 0x34, 0, 0, 0, 0, 0, 0] = 1034 := by
  refine ⟨ascii_to_num_eq b, ⟨_, rfl⟩, ?_, ?_⟩
  · rw [ascii_to_num_eq]; decide
  · rw [ascii_to_num_eq]; decide

theorem C2_ascii_to_num_formula_witness :
    IsBuf10 [0x39, 0x20, 0x37, 0xff, 1, 2, 3, 4, 5, 6]
    ∧ ascii_to_num [0x39, 0x20, 0x37, 0xff, 1, 2, 3, 4, 5, 6] = 9070 := by
  have h : IsBuf10 [0x39, 0x20, 0x37, 0xff, 1, 2, 3, 4, 5, 6] := by decide
  refine ⟨h, ?_⟩
  rw [(C2_ascii_to_num_formula _ h).1]
  decide

theorem ascii_to_num_digit_range (x : Nat) :
    0 ≤ ascii_to_num_digit x ∧ ascii_to_num_digit x ≤ 9 := by
  unfold ascii_to_num_digit
  split_ifs <;> omega

/-- C10: for every 10-byte buffer the four decoded digits lie in `0..9`, every
signed sub-expression of `d[3] + d[2]*10 + d[1]*100 + d[0]*1000` lies between
0 and 9999 (hence inside the range of `int`), and the conversion to
`unsigned int` does not wrap: `ascii_to_num` returns that sum, a value in
`0..9999`. -/
theorem C10_ascii_to_num_range (b : List Nat) (_hb : IsBuf10 b) :
    (∀ x ∈ ascii_to_num_d b, 0 ≤ x ∧ x ≤ 9)
    ∧ (0 ≤ (ascii_to_num_d b).getD 2 0 * 10 ∧ (ascii_to_num_d b).getD 2 0 * 10 ≤ 90)
    ∧ (0 ≤ (ascii_to_num_d b).getD 1 0 * 100 ∧ (ascii_to_num_d b).getD 1 0 * 100 ≤ 900)
    ∧ (0 ≤ (ascii_to_num_d b).getD 0 0 * 1000 ∧ (ascii_to_num_d b).getD 0 0 * 1000 ≤ 9000)
    ∧ (0 ≤ (ascii_to_num_d b).getD 3 0 + (ascii_to_num_d b).getD 2 0 * 10
        ∧ (ascii_to_num_d b).getD 3 0 + (ascii_to_num_d b).getD 2 0 * 10 ≤ 99)
    ∧ (0 ≤ (ascii_to_num_d b).getD 3 0 + (ascii_to_num_d b).getD 2 0 * 10
            + (ascii_to_num_d b).getD 1 0 * 100
        ∧ (ascii_to_num_d b).getD 3 0 + (ascii_to_num_d b).getD 2 0 * 10
            + (ascii_to_num_d b).getD 1 0 * 100 ≤ 999)
    ∧ (INT_MIN ≤ 0 ∧ 0 ≤ ascii_to_num_sum b ∧ ascii_to_num_sum b ≤ 9999 ∧ 9999 ≤ INT_MAX)
    ∧ ((ascii_to_num b : Int) = ascii_to_num_sum b)
    ∧ ascii_to_num b ≤ 9999 := by
  have h0 := ascii_to_num_digit_range (b.getD 0 0)
  have h1 := ascii_to_num_digit_range (b.getD 1 0)
  have h2 := ascii_to_num_digit_range (b.getD 2 0)
  have h3 := ascii_to_num_digit_range (b.getD 3 0)
  have g0 := spec_digit_le (b.getD 0 0)
  have g1 := spec_digit_le (b.getD 1 0)
  have g2 := spec_digit_le (b.getD 2 0)
  have g3 := spec_digit_le (b.getD 3 0)
  have hu : (ascii_to_num b : Int) = ascii_to_num_sum b := by
    rw [ascii_to_num_sum_eq, ascii_to_num_eq]
  have hle : ascii_to_num b ≤ 9999 := by
    rw [ascii_to_num_eq]; omega
  refine ⟨?_, ?_, ?_, ?_, ?_, ?_, ?_, hu, hle⟩
  all_goals simp only [ascii_to_num_sum, INT_MIN, INT_MAX, ascii_to_num_d_eq,
    List.getD_cons_zero, List.getD_cons_succ]
  · intro x hx
    simp only [List.mem_cons, List.mem_singleton, List.not_mem_nil, or_false] at hx
    rcases hx with rfl | rfl | rfl | rfl <;> assumption
  all_goals omega

theorem C10_ascii_to_num_range_witness :
    IsBuf10 [0x39, 0x39, 0x39, 0x39, 0xff, 0, 0, 0, 0, 0]
    ∧ ascii_to_num_sum [0x39, 0x39, 0x39, 0x39, 0xff, 0, 0, 0, 0, 0] = 9999
    ∧ ascii_to_num [0x39, 0x39, 0x39, 0x39, 0xff, 0, 0, 0, 0, 0] ≤ 9999 := by
  have h : IsBuf10 [0x39, 0x39, 0x39, 0x39, 0xff, 0, 0, 0, 0, 0] := by decide
  exact ⟨h, by rw [ascii_to_num_sum_eq]; decide, (C10_ascii_to_num_range _ h).2.2.2.2.2.2.2.2⟩

/-! ## Theorems: file operations -/

theorem to_ssize_small (len : Nat) (h : len < 2147483648) : to_ssize len = len := by
  unfold to_ssize
  have h1 : len % 4294967296 = len := Nat.mod_eq_of_lt (by omega)
  rw [h1, if_pos h]

theorem pwm_write_ret (ubuf : List Nat) (len : Nat) (s : State) :
    (pwm_write ubuf len s).1 = to_ssize len := rfl

/-- C3: for every requested length `len` in `[0, 10]`, whatever the caller
memory readable at `buf` (so for a full, a partial and a failed copy alike) and
whatever the driver state, `pwm_write` returns exactly `len`. -/
theorem C3_pwm_write_returns_len (ubuf : List Nat) (len : Nat) (s : State)
    (hlen : len ≤ 10) :
    (pwm_write ubuf len s).1 = (len : Int) := by
  rw [pwm_write_ret]
  exact to_ssize_small len (by omega)

theorem C3_pwm_write_returns_len_witness :
    (7 ≤ 10)
    ∧ (pwm_write_frame [0x30, 0x37, 0x35] 7).copy.uncopied = 4
    ∧ (pwm_write [0x30, 0x37, 0x35] 7 State.init).1 = ((7 : Nat) : Int) :=
  ⟨by decide, by decide, C3_pwm_write_returns_len [0x30, 0x37, 0x35] 7 State.init (by decide)⟩

theorem pwm_write_rec_buf_zero (ubuf : List Nat) (len : Nat) :
    (pwm_write_frame ubuf len).rec_buf.getD 0 0 =
      if 0 < min len ubuf.length then to_u8 (ubuf.getD 0 0) else 0 := by
  have hr : List.range 10 = [0, 1, 2, 3, 4, 5, 6, 7, 8, 9] := by decide
  simp [pwm_write_frame, copy_from_user, hr]

theorem pwm_write_rec_buf_zero_lt (ubuf : List Nat) (len : Nat) :
    (pwm_write_frame ubuf len).rec_buf.getD 0 0 < 256 := by
  rw [pwm_write_rec_buf_zero]
  unfold to_u8
  split_ifs <;> omega

theorem pwm_write_trace (ubuf : List Nat) (len : Nat) (s : State) :
    (pwm_write ubuf len s).2.trace =
      s.trace ++
        (Event.copy_from_user len (pwm_write_frame ubuf len).copy.uncopied
            (pwm_write_frame ubuf len).copy.oob
          :: (if (pwm_write_frame ubuf len).copy.uncopied > 0
                then [Event.log Msg.copy_from_user_short] else [])
          ++ [Event.log Msg.write_info,
              Event.iowrite32 (to_u32 ((pwm_write_frame ubuf len).rec_buf.getD 0 0))
                s.pwm_base]) := by
  by_cases h : (pwm_write_frame ubuf len).copy.uncopied > 0 <;> simp [pwm_write, emit, h]

theorem pwm_write_duty (ubuf : List Nat) (len : Nat) :
    (pwm_write_frame ubuf len).duty = ascii_to_num (pwm_write_frame ubuf len).rec_buf := rfl

theorem reg_writes_append (t u : List Event) :
    reg_writes (t ++ u) = reg_writes t ++ reg_writes u := by
  simp [reg_writes]

theorem pwm_write_reg_writes (ubuf : List Nat) (len : Nat) (s : State) :
    reg_writes (pwm_write ubuf len s).2.trace =
      reg_writes s.trace ++
        [Event.iowrite32 ((pwm_write_frame ubuf len).rec_buf.getD 0 0) s.pwm_base] := by
  have hlt := pwm_write_rec_buf_zero_lt ubuf len
  have hu : to_u32 ((pwm_write_frame ubuf len).rec_buf.getD 0 0)
      = (pwm_write_frame ubuf len).rec_buf.getD 0 0 := by
    unfold to_u32; omega
  rw [pwm_write_trace, reg_writes_append, hu]
  congr 1
  split_ifs <;> simp [reg_writes]

theorem pwm_write_eq_of_frame (ubuf ubuf2 : List Nat) (len : Nat) (s : State)
    (h0 : (pwm_write_frame ubuf2 len).rec_buf.getD 0 0
            = (pwm_write_frame ubuf len).rec_buf.getD 0 0)
    (hc : (pwm_write_frame ubuf2 len).copy.uncopied = (pwm_write_frame ubuf len).copy.uncopied)
    (ho : (pwm_write_frame ubuf2 len).copy.oob = (pwm_write_frame ubuf len).copy.oob) :
    pwm_write ubuf2 len s = pwm_write ubuf len s := by
  unfold pwm_write
  simp only [h0, hc, ho]

/-- C9: for every write call, `pwm_write` performs one register store, to
`pwm_base`, of the first byte of the command buffer zero-extended
(`rec_buf[0]`, a value in `0..255`, and `0` when `len = 0`); the local `duty`
holds `ascii_to_num(rec_buf)` but nothing the call does or returns depends on
it: two calls whose buffers agree on `rec_buf[0]` and whose copies end alike
behave identically, and for the buffer spelling "0750XYZ" the store is 48
while `duty` is 750. -/
theorem C9_pwm_write_stores_first_byte (ubuf : List Nat) (len : Nat) (s : State) :
    reg_writes (pwm_write ubuf len s).2.trace =
        reg_writes s.trace ++
          [Event.iowrite32 ((pwm_write_frame ubuf len).rec_buf.getD 0 0) s.pwm_base]
    ∧ to_u32 ((pwm_write_frame ubuf len).rec_buf.getD 0 0)
        = (pwm_write_frame ubuf len).rec_buf.getD 0 0
    ∧ (pwm_write_frame ubuf len).rec_buf.getD 0 0 < 256
    ∧ (pwm_write_frame ubuf 0).rec_buf.getD 0 0 = 0
    ∧ (pwm_write_frame ubuf len).duty = ascii_to_num (pwm_write_frame ubuf len).rec_buf
    ∧ (∀ ubuf2 : List Nat,
        (pwm_write_frame ubuf2 len).rec_buf.getD 0 0
            = (pwm_write_frame ubuf len).rec_buf.getD 0 0 →
        (pwm_write_frame ubuf2 len).copy.uncopied = (pwm_write_frame ubuf len).copy.uncopied →
        (pwm_write_frame ubuf2 len).copy.oob = (pwm_write_frame ubuf len).copy.oob →
        pwm_write ubuf2 len s = pwm_write ubuf len s)
    ∧ ((pwm_write_frame [0x30, 0x37, 0x35, 0x30, 0x58, 0x59, 0x5A] 7).rec_buf.getD 0 0 = 48
        ∧ (pwm_write_frame [0x30, 0x37, 0x35, 0x30, 0x58, 0x59, 0x5A] 7).duty = 750) := by
  have hlt := pwm_write_rec_buf_zero_lt ubuf len
  refine ⟨pwm_write_reg_writes ubuf len s, ?_, hlt, ?_, rfl, ?_, ?_, ?_⟩
  · unfold to_u32; omega
  · rw [pwm_write_rec_buf_zero]; simp
  · intro ubuf2 h0 hc ho
    exact pwm_write_eq_of_frame ubuf ubuf2 len s h0 hc ho
  · decide
  · rw [pwm_write_duty, ascii_to_num_eq]; decide

theorem C9_pwm_write_stores_first_byte_witness :
    reg_writes (pwm_write [0x39, 0x39, 0x39, 0x39] 4 State.init).2.trace
        = [Event.iowrite32 0x39 0]
    ∧ pwm_write [0x39, 0x30, 0x30, 0x30] 4 State.init
        = pwm_write [0x39, 0x39, 0x39, 0x39] 4 State.init
    ∧ (pwm_write_frame [0x39, 0x30, 0x30, 0x30] 4).duty = 9000
    ∧ (pwm_write_frame [0x39, 0x39, 0x39, 0x39] 4).duty = 9999 := by
  have h := C9_pwm_write_stores_first_byte [0x39, 0x39, 0x39, 0x39] 4 State.init
  refine ⟨?_, h.2.2.2.2.2.1 [0x39, 0x30, 0x30, 0x30] (by decide) (by decide) (by decide), ?_, ?_⟩
  · rw [h.1]; decide
  · rw [pwm_write_duty, ascii_to_num_eq]; decide
  · rw [pwm_write_duty, ascii_to_num_eq]; decide

/-- C1: writing the 7 bytes "0750XYZ" to the bound device returns 7 and
issues exactly one register write to the mapped handle, but the value written
is 48, the code of the first character, while `ascii_to_num` of the bytes
received is 750. -/
theorem C1_pwm_write_0750XYZ :
    (pwm_dev_probe Platform.good State.init).1 = 0
    ∧ (pwm_dev_probe Platform.good State.init).2.pwm_base = 0xF0000000
    ∧ (pwm_write [0x30, 0x37, 0x35, 0x30, 0x58, 0x59, 0x5A] 7
          (pwm_dev_probe Platform.good State.init).2).1 = 7
    ∧ (pwm_write_frame [0x30, 0x37, 0x35, 0x30, 0x58, 0x59, 0x5A] 7).copy.uncopied = 0
    ∧ reg_writes (pwm_write [0x30, 0x37, 0x35, 0x30, 0x58, 0x59, 0x5A] 7
          (pwm_dev_probe Platform.good State.init).2).2.trace
        = [Event.iowrite32 48 0xF0000000]
    ∧ ascii_to_num (pwm_write_frame [0x30, 0x37, 0x35, 0x30, 0x58, 0x59, 0x5A] 7).rec_buf
        = 750 := by
  refine ⟨by decide, by decide, by decide, by decide, ?_, ?_⟩
  · rw [pwm_write_reg_writes]; decide
  · rw [ascii_to_num_eq]; decide

/-- C4: for every requested length, every amount of writable caller memory
and every driver state, `pwm_read` asks for exactly one byte to be copied to
the caller and then returns 0, not 1; with one writable byte the byte 0 is
delivered and the call still returns 0. -/
theorem C4_pwm_read_returns_zero (uwritable len : Nat) (s : State) :
    (pwm_read uwritable len s).1 = 0
    ∧ (pwm_read uwritable len s).1 ≠ 1
    ∧ (pwm_read uwritable len s).2.trace =
        s.trace ++
          (Event.copy_to_user (copy_to_user uwritable [0] 1).1 1 (copy_to_user uwritable [0] 1).2
            :: (if (copy_to_user uwritable [0] 1).2 > 0
                  then [Event.log Msg.copy_to_user_short] else [])
            ++ [Event.log Msg.read_info])
    ∧ (pwm_read 1 1 State.init).2.trace
        = [Event.copy_to_user [0] 1 0, Event.log Msg.read_info]
    ∧ (pwm_read 1 1 State.init).1 = 0 := by
  refine ⟨rfl, by simp [pwm_read], ?_, by decide, rfl⟩
  by_cases h : (copy_to_user uwritable [0] 1).2 > 0 <;> simp [pwm_read, emit, h]

theorem copy_counts_append (t u : List Event) :
    copy_counts (t ++ u) = copy_counts t ++ copy_counts u := by
  simp [copy_counts]

/-- C5: `pwm_write` passes the requested length to `copy_from_user` unchanged,
for every length; for an 11-byte write the count requested is 11, which
exceeds the 10-byte buffer (`min 11 10 = 10`), and when the caller memory is
readable the byte at offset 10, outside `rec_buf`, is stored to. -/
theorem C5_pwm_write_copy_count_uncapped :
    (∀ (ubuf : List Nat) (len : Nat) (s : State),
        copy_counts (pwm_write ubuf len s).2.trace = copy_counts s.trace ++ [len])
    ∧ copy_counts (pwm_write (List.replicate 11 0x41) 11 State.init).2.trace = [11]
    ∧ ¬ (11 ≤ 10)
    ∧ min 11 10 ≠ 11
    ∧ (pwm_write_frame (List.replicate 11 0x41) 11).copy.oob = [10]
    ∧ (pwm_write (List.replicate 11 0x41) 11 State.init).2.trace
        = [Event.copy_from_user 11 0 [10], Event.log Msg.write_info, Event.iowrite32 0x41 0] := by
  refine ⟨?_, by decide, by decide, by decide, by decide, by decide⟩
  intro ubuf len s
  rw [pwm_write_trace, copy_counts_append]
  congr 1
  split_ifs <;> simp [copy_counts]

/-! ## Theorems: binding and module load -/

/-- C7: when the platform provides no memory resource, `pwm_dev_probe` returns
`-ENXIO` (that is, -6) without calling `ioremap`, without acquiring anything
and without touching `pwm_base`; `pwm_driver_init` then returns -1 without
having called `alloc_chrdev_region`, `cdev_add`, `class_create` or
`device_create`, and holds nothing afterwards, so no device node exists. -/
theorem C7_probe_without_resource (p : Platform) (s : State) (hregs : p.regs = none) :
    (pwm_dev_probe p s).1 = - ENXIO
    ∧ (pwm_dev_probe p s).1 = -6
    ∧ map_calls (pwm_dev_probe p s).2.trace = map_calls s.trace
    ∧ (pwm_dev_probe p s).2.held = s.held
    ∧ (pwm_dev_probe p s).2.pwm_base = s.pwm_base
    ∧ (pwm_driver_init p State.init).1 = -1
    ∧ node_calls (pwm_driver_init p State.init).2.trace = []
    ∧ (pwm_driver_init p State.init).2.held = []
    ∧ Resource.dev_node ∉ (pwm_driver_init p State.init).2.held := by
  have hprobe : ∀ t : State, pwm_dev_probe p t =
      (- ENXIO, emit (.log .no_io_memory)
        (emit (.platform_get_resource false) (emit (.log .probe_banner) t))) := by
    intro t
    simp [pwm_dev_probe, hregs]
  refine ⟨?_, ?_, ?_, ?_, ?_, ?_, ?_, ?_, ?_⟩
  · rw [hprobe]
  · rw [hprobe]; rfl
  · rw [hprobe]; simp [map_calls, emit]
  · rw [hprobe]; rfl
  · rw [hprobe]; rfl
  all_goals
    cases hm : p.device_matched <;>
      simp [pwm_driver_init, platform_driver_probe, hprobe, hm, ENXIO, ENODEV, emit, acquire,
        release, State.init, node_calls]

theorem C7_probe_without_resource_witness :
    ({ Platform.good with regs := none } : Platform).regs = none
    ∧ (pwm_dev_probe { Platform.good with regs := none } State.init).1 = -6
    ∧ (pwm_driver_init { Platform.good with regs := none } State.init).1 = -1
    ∧ (pwm_driver_init { Platform.good with regs := none } State.init).2.held = [] :=
  have h := C7_probe_without_resource { Platform.good with regs := none } State.init rfl
  ⟨rfl, h.2.1, h.2.2.2.2.2.1, h.2.2.2.2.2.2.2.1⟩

/-- C6: with the binding step succeeding and a later step of
`pwm_driver_init` failing (`alloc_chrdev_region`, `cdev_add`, `class_create`
or `device_create`), the call returns -1 while the platform driver is still
registered and the register window is still mapped: neither
`platform_driver_unregister` nor `iounmap` is called. `pwm_driver_exit`, run
after a successful load, does release both and leaves nothing held. -/
theorem C6_init_failure_keeps_binding :
    ((pwm_driver_init { Platform.good with alloc_chrdev_region_ret := -12 } State.init).1 = -1
      ∧ (pwm_driver_init { Platform.good with alloc_chrdev_region_ret := -12 } State.init).2.held
          = [Resource.platform_driver, Resource.iomem 0xF0000000]
      ∧ map_calls
          (pwm_driver_init { Platform.good with alloc_chrdev_region_ret := -12 } State.init).2.trace
          = [Event.ioremap 0x43C00000 0x10000 0xF0000000]
      ∧ Event.platform_driver_unregister ∉
          (pwm_driver_init { Platform.good with alloc_chrdev_region_ret := -12 } State.init).2.trace)
    ∧ ((pwm_driver_init { Platform.good with cdev_add_ret := -12 } State.init).1 = -1
      ∧ (pwm_driver_init { Platform.good with cdev_add_ret := -12 } State.init).2.held
          = [Resource.platform_driver, Resource.iomem 0xF0000000])
    ∧ ((pwm_driver_init { Platform.good with class_create_ret := 0 } State.init).1 = -1
      ∧ (pwm_driver_init { Platform.good with class_create_ret := 0 } State.init).2.held
          = [Resource.platform_driver, Resource.iomem 0xF0000000])
    ∧ ((pwm_driver_init { Platform.good with device_create_ret := 0 } State.init).1 = -1
      ∧ (pwm_driver_init { Platform.good with device_create_ret := 0 } State.init).2.held
          = [Resource.platform_driver, Resource.iomem 0xF0000000])
    ∧ ((pwm_driver_init Platform.good State.init).1 = 0
      ∧ (pwm_driver_exit (pwm_driver_init Platform.good State.init).2).held = []
      ∧ map_calls (pwm_driver_exit (pwm_driver_init Platform.good State.init).2).trace
          = [Event.ioremap 0x43C00000 0x10000 0xF0000000, Event.iounmap 0xF0000000]) := by
  refine ⟨⟨?_, ?_, ?_, ?_⟩, ⟨?_, ?_⟩, ⟨?_, ?_⟩, ⟨?_, ?_⟩, ⟨?_, ?_, ?_⟩⟩ <;> decide

theorem run_ops_overrun (ubuf : List Nat) (len : Nat) (ops : List FileOp) (s : State)
    (hlen : 10 < len) :
    run_ops (FileOp.write ubuf len :: ops) s = none := by
  have h : (FileOp.write ubuf len).defined = false := by
    simp [FileOp.defined, hlen]
  simp [run_ops, h]

end PwmDriver
